import Mathlib

/-!
Verification of the sandboxer container-lifecycle CLI.

The development shallowly embeds the two source modules:
* `container.py` — naming (`generate_container_name`), firewall-script
  generation, `ps`-output parsing (`list_containers`), and the engine
  wrappers (`run_container`, `remove_container`, `pull_image`, ...);
* `cli.py` — the `run` command's orchestration state machine and the
  `list` command.

Strings are modelled as `List Char` (Python `str`), byte strings as
`List Nat` with entries below 256, and machine words as `Nat` reduced
modulo `2 ^ 32` where the SHA-256 arithmetic overflows.  Engine
subprocess effects are modelled by an explicit trace of `EngineCall`s
together with an environment `EngineEnv` fixing each subprocess's
exit code and captured output.
-/

set_option maxRecDepth 20000

namespace Sandboxer

/-- Shorthand: the character list of a string literal. -/
def toL (s : String) : List Char := s.toList

/-- Python `pat in s` (substring containment) on character lists. -/
def isSubstr (pat : List Char) : List Char → Bool
  | [] => pat.isPrefixOf ([] : List Char)
  | c :: rest => pat.isPrefixOf (c :: rest) || isSubstr pat rest

/-- Python `s.split(sep)` for a one-character separator: splits at every
occurrence, keeping empty pieces (`"".split` gives `[""]`). -/
def splitChar (sep : Char) : List Char → List (List Char)
  | [] => [[]]
  | c :: rest =>
    if c = sep then [] :: splitChar sep rest
    else
      match splitChar sep rest with
      | [] => [[c]]
      | g :: gs => (c :: g) :: gs

/-- The suffix of `l` after the first occurrence of `sep`; `[]` when `sep`
does not occur.  This is Python `l.split(sep, 1)[1]` when `sep ∈ l`. -/
def afterFirst (sep : Char) : List Char → List Char
  | [] => []
  | c :: rest => if c = sep then rest else afterFirst sep rest

/-- The whitespace set stripped by Python `str.strip()`. -/
def isPyWs (c : Char) : Bool :=
  c = ' ' || c = '\t' || c = '\n' || c = '\r' || c = '\x0b' || c = '\x0c'

/-- Python `s.strip()`. -/
def trimWs (s : List Char) : List Char :=
  ((s.dropWhile isPyWs).reverse.dropWhile isPyWs).reverse

/-! ### SHA-256 (FIPS 180-4), the function behind Python `hashlib.sha256` -/

/-- Truncation to a 32-bit word. -/
def w32 (n : Nat) : Nat := n % 4294967296

/-- 32-bit right rotation. -/
def rotr (n x : Nat) : Nat := w32 ((x >>> n) ||| (x <<< (32 - n)))

def sha256Ch (x y z : Nat) : Nat := (x &&& y) ^^^ ((x ^^^ 4294967295) &&& z)

def sha256Maj (x y z : Nat) : Nat := (x &&& y) ^^^ (x &&& z) ^^^ (y &&& z)

def bigSigma0 (x : Nat) : Nat := rotr 2 x ^^^ rotr 13 x ^^^ rotr 22 x

def bigSigma1 (x : Nat) : Nat := rotr 6 x ^^^ rotr 11 x ^^^ rotr 25 x

def smallSigma0 (x : Nat) : Nat := rotr 7 x ^^^ rotr 18 x ^^^ (x >>> 3)

def smallSigma1 (x : Nat) : Nat := rotr 17 x ^^^ rotr 19 x ^^^ (x >>> 10)

/-- The 64 SHA-256 round constants (FIPS 180-4 §4.2.2, in decimal). -/
def sha256K : List Nat :=
  [1116352408, 1899447441, 3049323471, 3921009573, 961987163, 1508970993,
   2453635748, 2870763221, 3624381080, 310598401, 607225278, 1426881987,
   1925078388, 2162078206, 2614888103, 3248222580, 3835390401, 4022224774,
   264347078, 604807628, 770255983, 1249150122, 1555081692, 1996064986,
   2554220882, 2821834349, 2952996808, 3210313671, 3336571891, 3584528711,
   113926993, 338241895, 666307205, 773529912, 1294757372, 1396182291,
   1695183700, 1986661051, 2177026350, 2456956037, 2730485921, 2820302411,
   3259730800, 3345764771, 3516065817, 3600352804, 4094571909, 275423344,
   430227734, 506948616, 659060556, 883997877, 958139571, 1322822218,
   1537002063, 1747873779, 1955562222, 2024104815, 2227730452, 2361852424,
   2428436474, 2756734187, 3204031479, 3329325298]

/-- Big-endian 8-byte encoding of the 64-bit message length. -/
def lenBytes64 (n : Nat) : List Nat :=
  [n / 2 ^ 56 % 256, n / 2 ^ 48 % 256, n / 2 ^ 40 % 256, n / 2 ^ 32 % 256,
   n / 2 ^ 24 % 256, n / 2 ^ 16 % 256, n / 2 ^ 8 % 256, n % 256]

/-- SHA-256 padding: append `0x80`, zero bytes, and the bit length, so the
total length is a multiple of 64. -/
def padMessage (msg : List Nat) : List Nat :=
  let L := msg.length
  let k := (119 - L % 64) % 64
  msg ++ 128 :: List.replicate k 0 ++ lenBytes64 (8 * L)

/-- Big-endian grouping of bytes into 32-bit words. -/
def bytesToWords : List Nat → List Nat
  | b0 :: b1 :: b2 :: b3 :: rest =>
    (b0 * 2 ^ 24 + b1 * 2 ^ 16 + b2 * 2 ^ 8 + b3) :: bytesToWords rest
  | _ => []

/-- Extend the 16 chunk words to the 64-entry message schedule. -/
def extendWords (ws : Array Nat) : Array Nat :=
  (List.range 48).foldl
    (fun a i =>
      a.push (w32 (smallSigma1 (a.getD (i + 14) 0) + a.getD (i + 9) 0 +
        smallSigma0 (a.getD (i + 1) 0) + a.getD i 0)))
    ws

/-- The eight 32-bit working registers of SHA-256. -/
structure Hash8 where
  ha : Nat
  hb : Nat
  hc : Nat
  hd : Nat
  he : Nat
  hf : Nat
  hg : Nat
  hh : Nat
  deriving DecidableEq, Repr

/-- Initial SHA-256 hash value (FIPS 180-4 §5.3.3, in decimal). -/
def sha256Init : Hash8 :=
  ⟨1779033703, 3144134277, 1013904242, 2773480762,
   1359893119, 2600822924, 528734635, 1541459225⟩

/-- One compression round, consuming a `(round constant, schedule word)` pair. -/
def compressStep (s : Hash8) (kw : Nat × Nat) : Hash8 :=
  let t1 := w32 (s.hh + bigSigma1 s.he + sha256Ch s.he s.hf s.hg + kw.1 + kw.2)
  let t2 := w32 (bigSigma0 s.ha + sha256Maj s.ha s.hb s.hc)
  ⟨w32 (t1 + t2), s.ha, s.hb, s.hc, w32 (s.hd + t1), s.he, s.hf, s.hg⟩

/-- Process one 64-byte chunk: 64 compression rounds, then feed-forward. -/
def processChunk (h : Hash8) (chunk : List Nat) : Hash8 :=
  let ws := extendWords (bytesToWords chunk).toArray
  let s := (sha256K.zip ws.toList).foldl compressStep h
  ⟨w32 (h.ha + s.ha), w32 (h.hb + s.hb), w32 (h.hc + s.hc), w32 (h.hd + s.hd),
   w32 (h.he + s.he), w32 (h.hf + s.hf), w32 (h.hg + s.hg), w32 (h.hh + s.hh)⟩

/-- Split a byte list into 64-byte chunks (structural recursion on a fuel
bound; each step consumes at least one byte, so `l.length` fuel is enough). -/
def chunks64Fuel : Nat → List Nat → List (List Nat)
  | 0, _ => []
  | _, [] => []
  | fuel + 1, b :: rest =>
    (b :: rest).take 64 :: chunks64Fuel fuel ((b :: rest).drop 64)

/-- Split a byte list into 64-byte chunks. -/
def chunks64 (l : List Nat) : List (List Nat) := chunks64Fuel l.length l

/-- Big-endian bytes of one 32-bit word. -/
def wordBytes (w : Nat) : List Nat :=
  [w / 2 ^ 24 % 256, w / 2 ^ 16 % 256, w / 2 ^ 8 % 256, w % 256]

/-- The 32-byte digest from the final registers. -/
def hashBytes (h : Hash8) : List Nat :=
  wordBytes h.ha ++ wordBytes h.hb ++ wordBytes h.hc ++ wordBytes h.hd ++
  wordBytes h.he ++ wordBytes h.hf ++ wordBytes h.hg ++ wordBytes h.hh

/-- SHA-256 of a byte string. -/
def sha256 (msg : List Nat) : List Nat :=
  hashBytes ((chunks64 (padMessage msg)).foldl processChunk sha256Init)

/-- The sixteen lowercase hex digits, in order. -/
def hexDigitChars : List Char := "0123456789abcdef".toList

/-- Two lowercase hex characters of one byte. -/
def byteToHex (b : Nat) : List Char :=
  [hexDigitChars.getD (b / 16) '0', hexDigitChars.getD (b % 16) '0']

/-- Python `.hexdigest()`: lowercase hex of a byte string. -/
def hexdigest (bs : List Nat) : List Char := bs.flatMap byteToHex

/-- UTF-8 encoding of one code point (Python `str.encode()`, per character). -/
def utf8EncodeChar (c : Char) : List Nat :=
  let n := c.toNat
  if n < 128 then [n]
  else if n < 2048 then [192 + n / 64, 128 + n % 64]
  else if n < 65536 then [224 + n / 4096, 128 + n / 64 % 64, 128 + n % 64]
  else [240 + n / 262144, 128 + n / 4096 % 64, 128 + n / 64 % 64, 128 + n % 64]

/-- Python `str.encode()` (UTF-8). -/
def utf8Encode (s : List Char) : List Nat := s.flatMap utf8EncodeChar

/-! ### Naming (`container.py`, `generate_container_name`) -/

/-- Python `PurePosixPath.name` for the resolved absolute paths the CLI
passes in: the final `/`-separated component. -/
def pathBasename (p : List Char) : List Char := (splitChar '/' p).getLastD []

/-- `container.py::generate_container_name`:
`f"sandboxer-\x7bfolder_name\x7d-\x7bpath_hash\x7d"` with
`path_hash = hashlib.sha256(str(folder_path).encode()).hexdigest()[:8]`. -/
def generate_container_name (folder_path : List Char) : List Char :=
  let folder_name := pathBasename folder_path
  let path_hash := (hexdigest (sha256 (utf8Encode folder_path))).take 8
  toL "sandboxer-" ++ folder_name ++ toL "-" ++ path_hash

/-! ### `ps`-output parsing (`container.py`, `list_containers`) -/

/-- `container.py::Container`. -/
structure Container where
  id : List Char
  name : List Char
  status : List Char
  mounted_path : List Char
  deriving DecidableEq, Repr

def LABEL_MANAGED : List Char := toL "com.sandboxer.managed"

def LABEL_MOUNTED_PATH : List Char := toL "com.sandboxer.mounted-path"

/-- The label-scanning loop of `list_containers`: first entry starting with
`f"\x7bLABEL_MOUNTED_PATH\x7d:"` wins, its `split(":", 1)[1]` is returned. -/
def findMountedPath : List (List Char) → List Char
  | [] => []
  | l :: ls =>
    if (LABEL_MOUNTED_PATH ++ [':']).isPrefixOf l then afterFirst ':' l
    else findMountedPath ls

/-- Extraction of the mounted path from a labels blob
`map[key:value key2:value2 ...]`; empty string when the blob is not of
that shape or the label is absent. -/
def parseLabels (labels : List Char) : List Char :=
  if (toL "map[").isPrefixOf labels && [']'].isSuffixOf labels then
    findMountedPath (splitChar ' ' (labels.drop 4).dropLast)
  else []

/-- One iteration of the `list_containers` output loop: `none` for the
skipped lines (empty, or fewer than 4 `|`-separated fields). -/
def parseLine (line : List Char) : Option Container :=
  if line = [] then none
  else
    let parts := splitChar '|' line
    if parts.length < 4 then none
    else
      some
        { id := (parts.getD 0 []).take 12
          name := parts.getD 1 []
          status := parts.getD 2 []
          mounted_path := parseLabels (parts.getD 3 []) }

/-- `container.py::list_containers`, as a function of the `podman ps`
subprocess's exit code and captured stdout. -/
def list_containers (psReturncode : Nat) (psStdout : List Char) : List Container :=
  if psReturncode ≠ 0 then []
  else (splitChar '\n' (trimWs psStdout)).filterMap parseLine

/-! ### Outcomes and the `list` command (`cli.py`) -/

/-- Process outcome of a CLI command: `typer.Exit(n)` or a plain return
(the latter also means exit code 0). -/
inductive Outcome
  | exitCode (n : Nat)
  | normal
  deriving DecidableEq, Repr

/-- `cli.py::list_cmd`: outcome plus whether the no-containers notice (as
opposed to the table) was printed.  It inspects only the parsed list, so an
engine failure is indistinguishable from an empty list. -/
def list_cmd (psReturncode : Nat) (psStdout : List Char) : Outcome × Bool :=
  let containers := list_containers psReturncode psStdout
  (Outcome.normal, containers.isEmpty)

/-! ### The `run` command (`cli.py::run` with `container.py::run_container`) -/

/-- One engine subprocess invocation issued while `run` executes.
`psList` is the `podman ps` behind `find_container_by_name`; `createRun`
is the `podman run` that creates a new container. -/
inductive EngineCall
  | psList
  | remove (name : List Char)
  | pull (image : List Char)
  | createRun (detach : Bool)
  | attach (name : List Char)
  deriving DecidableEq, Repr

/-- Warnings `run` may print. -/
inductive Warning
  | portsDisabled
  | mountMismatch (mounted requested : List Char)
  deriving DecidableEq, Repr

/-- Error messages `run` may print; the payload is the surfaced stderr. -/
inductive ErrMsg
  | badEngine
  | mutexFlags
  | removeFailed (stderr : List Char)
  | engineError (stderr : List Char)
  deriving DecidableEq, Repr

/-- Informational messages relevant to the claims. -/
inductive Note
  | foundRunning (name : List Char)
  | alreadyRunning (name id : List Char)
  | cancelled
  | containerStarted (id : List Char)
  deriving DecidableEq, Repr

/-- The `run` command's option set after argument parsing. -/
structure RunOpts where
  folder : List Char
  image : List Char
  detach : Bool
  name : Option (List Char)
  container_dir : List Char
  force : Bool
  no_internet : Bool
  only_claude : Bool
  only_dev : Bool
  engine : List Char
  expose_ports : Bool
  deriving DecidableEq, Repr

/-- Behaviour of the external engine and the user during one `run`
invocation: what `find_container_by_name` yields, the confirmation
answer, and each subprocess's exit code and captured output. -/
structure EngineEnv where
  findResult : Option Container
  confirmAnswer : Bool
  removeReturncode : Nat
  removeStderr : List Char
  pullReturncode : Nat
  pullStderr : List Char
  runReturncode : Nat
  runStdout : List Char
  runStderr : List Char
  deriving DecidableEq, Repr

/-- Everything observable about one `run` invocation. -/
structure RunResult where
  calls : List EngineCall
  outcome : Outcome
  warnings : List Warning
  errors : List ErrMsg
  notes : List Note
  deriving DecidableEq, Repr

/-- Python `"Up" in status or "running" in status.lower()`. -/
def isActiveStatus (status : List Char) : Bool :=
  isSubstr (toL "Up") status || isSubstr (toL "running") (status.map Char.toLower)

/-- The container name `run` operates with: the `--name` option, or the
generated one. -/
def effectiveName (opts : RunOpts) : List Char :=
  opts.name.getD (generate_container_name opts.folder)

/-- The creation tail of `run` (cli.py lines 224-249 plus
`container.py::run_container`): in detached mode pull first and return the
pull failure without running; otherwise issue the interactive run. -/
def createPhase (opts : RunOpts) (env : EngineEnv) (pre : List EngineCall)
    (warnings : List Warning) : RunResult :=
  if opts.detach then
    if env.pullReturncode ≠ 0 then
      { calls := pre ++ [EngineCall.pull opts.image]
        outcome := Outcome.exitCode 1
        warnings := warnings
        errors := [ErrMsg.engineError env.pullStderr]
        notes := [] }
    else if env.runReturncode = 0 then
      { calls := pre ++ [EngineCall.pull opts.image, EngineCall.createRun true]
        outcome := Outcome.normal
        warnings := warnings
        errors := []
        notes := [Note.containerStarted ((trimWs env.runStdout).take 12)] }
    else
      { calls := pre ++ [EngineCall.pull opts.image, EngineCall.createRun true]
        outcome := Outcome.exitCode 1
        warnings := warnings
        errors := [ErrMsg.engineError env.runStderr]
        notes := [] }
  else
    { calls := pre ++ [EngineCall.createRun false]
      outcome := Outcome.normal
      warnings := warnings
      errors := []
      notes := [] }

/-- `cli.py::run`: flag validation, then the `NO_CONTAINER` / `RUNNING` /
`STOPPED` state machine. -/
def run (opts : RunOpts) (env : EngineEnv) : RunResult :=
  if ¬ (opts.engine = toL "podman" ∨ opts.engine = toL "docker") then
    { calls := [], outcome := Outcome.exitCode 1, warnings := [],
      errors := [ErrMsg.badEngine], notes := [] }
  else if (if opts.no_internet then 1 else 0) + (if opts.only_claude then 1 else 0) +
      (if opts.only_dev then 1 else 0) > 1 then
    { calls := [], outcome := Outcome.exitCode 1, warnings := [],
      errors := [ErrMsg.mutexFlags], notes := [] }
  else
    let warnings0 :=
      if opts.expose_ports && opts.no_internet then [Warning.portsDisabled] else []
    let name := effectiveName opts
    match env.findResult with
    | some c =>
      if isActiveStatus c.status then
        let mismatch := c.mounted_path ≠ [] ∧ c.mounted_path ≠ opts.folder
        let warnings := warnings0 ++
          (if mismatch then [Warning.mountMismatch c.mounted_path opts.folder] else [])
        let notes0 := if mismatch then [] else [Note.foundRunning name]
        if opts.detach then
          { calls := [EngineCall.psList], outcome := Outcome.normal,
            warnings := warnings, errors := [],
            notes := notes0 ++ [Note.alreadyRunning name c.id] }
        else
          { calls := [EngineCall.psList, EngineCall.attach name],
            outcome := Outcome.normal, warnings := warnings, errors := [],
            notes := notes0 }
      else
        if opts.force then
          if env.removeReturncode ≠ 0 then
            { calls := [EngineCall.psList, EngineCall.remove name],
              outcome := Outcome.exitCode 1, warnings := warnings0,
              errors := [ErrMsg.removeFailed env.removeStderr], notes := [] }
          else
            createPhase opts env [EngineCall.psList, EngineCall.remove name] warnings0
        else
          if env.confirmAnswer = false then
            { calls := [EngineCall.psList], outcome := Outcome.exitCode 0,
              warnings := warnings0, errors := [], notes := [Note.cancelled] }
          else if env.removeReturncode ≠ 0 then
            { calls := [EngineCall.psList, EngineCall.remove name],
              outcome := Outcome.exitCode 1, warnings := warnings0,
              errors := [ErrMsg.removeFailed env.removeStderr], notes := [] }
          else
            createPhase opts env [EngineCall.psList, EngineCall.remove name] warnings0
    | none => createPhase opts env [EngineCall.psList] warnings0

/-! ### Firewall scripts (`container.py`) -/

/-- `container.py::_generate_dev_only_firewall_script`, the literal script
text (Claude API plus package-manager hosts). -/
def _generate_dev_only_firewall_script : String :=
  "\n# Allowed domains for dev mode\nALLOWED_DOMAINS=\"\napi.anthropic.com\n" ++
  "pypi.org\nfiles.pythonhosted.org\nregistry.npmjs.org\nnpmjs.com\n" ++
  "proxy.golang.org\nsum.golang.org\nstorage.googleapis.com\ngithub.com\n" ++
  "api.github.com\nobjects.githubusercontent.com\nraw.githubusercontent.com\n" ++
  "astral.sh\nbun.sh\n\"\n\n# Allow loopback\n" ++
  "sudo iptables -A OUTPUT -o lo -j ACCEPT\n" ++
  "sudo iptables -A INPUT -i lo -j ACCEPT\n\n# Allow established connections\n" ++
  "sudo iptables -A OUTPUT -m state --state ESTABLISHED,RELATED -j ACCEPT\n\n" ++
  "# Allow DNS (needed for ongoing resolution)\n" ++
  "sudo iptables -A OUTPUT -p udp --dport 53 -j ACCEPT\n" ++
  "sudo iptables -A OUTPUT -p tcp --dport 53 -j ACCEPT\n\n" ++
  "# Allow HTTPS to each allowed domain\nfor domain in $ALLOWED_DOMAINS; do\n" ++
  "    DOMAIN_IPS=$(getent ahostsv4 $domain 2>/dev/null | awk \x27\x7bprint $1\x7d\x27 | sort -u)\n" ++
  "    for ip in $DOMAIN_IPS; do\n" ++
  "        sudo iptables -A OUTPUT -p tcp --dport 443 -d $ip -j ACCEPT\n" ++
  "    done\ndone\n\n# Drop everything else\n" ++
  "sudo iptables -A OUTPUT -j DROP\n\n" ++
  "# Disable Claude web search by creating user settings\nmkdir -p ~/.claude\n" ++
  "cat > ~/.claude/settings.json << \x27SETTINGS_EOF\x27\n\x7b\n" ++
  "  \"permissions\": \x7b\n    \"deny\": [\"WebSearch\", \"WebFetch\"]\n  \x7d\n\x7d\n" ++
  "SETTINGS_EOF\n"

/-- `container.py::_generate_claude_only_firewall_script`, the literal
script text (Claude API only). -/
def _generate_claude_only_firewall_script : String :=
  "\n# Resolve Claude API IPs (IPv4 only - filter out IPv6)\n" ++
  "CLAUDE_IPS=$(getent ahostsv4 api.anthropic.com | awk \x27\x7bprint $1\x7d\x27 | sort -u)\n\n" ++
  "# Allow loopback\nsudo iptables -A OUTPUT -o lo -j ACCEPT\n" ++
  "sudo iptables -A INPUT -i lo -j ACCEPT\n\n# Allow established connections\n" ++
  "sudo iptables -A OUTPUT -m state --state ESTABLISHED,RELATED -j ACCEPT\n\n" ++
  "# Allow DNS (needed for ongoing resolution)\n" ++
  "sudo iptables -A OUTPUT -p udp --dport 53 -j ACCEPT\n" ++
  "sudo iptables -A OUTPUT -p tcp --dport 53 -j ACCEPT\n\n" ++
  "# Allow HTTPS to Claude API IPs\nfor ip in $CLAUDE_IPS; do\n" ++
  "    sudo iptables -A OUTPUT -p tcp --dport 443 -d $ip -j ACCEPT\ndone\n\n" ++
  "# Drop everything else\nsudo iptables -A OUTPUT -j DROP\n\n" ++
  "# Disable Claude web search by creating user settings\nmkdir -p ~/.claude\n" ++
  "cat > ~/.claude/settings.json << \x27SETTINGS_EOF\x27\n\x7b\n" ++
  "  \"permissions\": \x7b\n    \"deny\": [\"WebSearch\", \"WebFetch\"]\n  \x7d\n\x7d\n" ++
  "SETTINGS_EOF\n"

/-- Number of positions of `s` at which `pat` matches. -/
def countOccur (pat : List Char) : List Char → Nat
  | [] => if pat.isPrefixOf ([] : List Char) then 1 else 0
  | c :: rest =>
    (if pat.isPrefixOf (c :: rest) then 1 else 0) + countOccur pat rest

/-- All positions of `s` (from `i0`) at which `pat` matches. -/
def occurIndicesAux (pat : List Char) : List Char → Nat → List Nat
  | [], i => if pat.isPrefixOf ([] : List Char) then [i] else []
  | c :: rest, i =>
    (if pat.isPrefixOf (c :: rest) then [i] else []) ++ occurIndicesAux pat rest (i + 1)

def occurIndices (pat s : List Char) : List Nat := occurIndicesAux pat s 0

/-- The suffix of `s` after the first occurrence of `pat` (`[]` if absent). -/
def afterSub (pat : List Char) : List Char → List Char
  | [] => []
  | c :: rest =>
    if pat.isPrefixOf (c :: rest) then (c :: rest).drop pat.length
    else afterSub pat rest

/-- The allow-list of the dev-only script: the nonempty lines of its
`ALLOWED_DOMAINS="..."` block. -/
def devAllowedDomains : List (List Char) :=
  (splitChar '\n'
    ((afterSub (toL "ALLOWED_DOMAINS=\"") (toL _generate_dev_only_firewall_script)).takeWhile
      (fun c => c ≠ '"'))).filter (fun l => l ≠ [])

/-! ### Concrete fixtures used by witnesses -/

/-- An existing running container, as in the end-to-end scenario. -/
def sampleRunning : Container :=
  { id := toL "abcdef123456", name := toL "sandboxer-proj-abcd1234",
    status := toL "Up 2 minutes", mounted_path := toL "/tmp/proj" }

/-- An existing stopped container. -/
def sampleStopped : Container :=
  { id := toL "abcdef123456", name := toL "sandboxer-proj-abcd1234",
    status := toL "Exited (0) 5 minutes ago", mounted_path := toL "/tmp/proj" }

/-- A default engine environment: nothing found, everything succeeds. -/
def sampleEnv : EngineEnv :=
  { findResult := none, confirmAnswer := true,
    removeReturncode := 0, removeStderr := [],
    pullReturncode := 0, pullStderr := [],
    runReturncode := 0, runStdout := toL "abcdef1234567890\n", runStderr := [] }

/-- Default options: interactive run of `/tmp/proj` with an explicit name. -/
def sampleOpts : RunOpts :=
  { folder := toL "/tmp/proj", image := toL "docker.io/rdubwiley/sandboxer",
    detach := false, name := some (toL "sandboxer-proj-abcd1234"),
    container_dir := toL "/home/developer/project", force := false,
    no_internet := false, only_claude := false, only_dev := false,
    engine := toL "podman", expose_ports := true }

/-! ### Claims -/

/-- **C4**: when more than one of the flags `no-internet`, `only-claude`,
`only-dev` is set, `run` is rejected with exit code 1 before any engine
subprocess is invoked: the engine-call trace is empty. -/
theorem run_mutex_flags_rejected (opts : RunOpts) (env : EngineEnv)
    (hflags : (if opts.no_internet then 1 else 0) + (if opts.only_claude then 1 else 0) +
      (if opts.only_dev then 1 else 0) > 1) :
    (run opts env).calls = [] ∧ (run opts env).outcome = Outcome.exitCode 1 := by
  by_cases he : opts.engine = toL "podman" ∨ opts.engine = toL "docker"
  · simp [run, he, hflags]
  · simp [run, he]

/-- Options with two conflicting network flags. -/
def mutexOpts : RunOpts :=
  { sampleOpts with
      no_internet := true,
      only_claude := true }

/-- Witness for C4 at `--no-internet --only-claude`. -/
theorem run_mutex_flags_rejected_witness :
    (run mutexOpts sampleEnv).calls = [] ∧
    (run mutexOpts sampleEnv).outcome = Outcome.exitCode 1 :=
  run_mutex_flags_rejected mutexOpts sampleEnv (by decide)

/-- **C2**: a stopped container found, `--force` unset, user declines the
confirmation: `run` aborts with exit code 0, having issued only the `ps`
lookup (no remove, no pull, no create) and reported no error. -/
theorem run_stopped_declined_aborts (opts : RunOpts) (env : EngineEnv) (c : Container)
    (hengine : opts.engine = toL "podman" ∨ opts.engine = toL "docker")
    (hflags : (if opts.no_internet then 1 else 0) + (if opts.only_claude then 1 else 0) +
      (if opts.only_dev then 1 else 0) ≤ 1)
    (hfind : env.findResult = some c)
    (hstopped : isActiveStatus c.status = false)
    (hforce : opts.force = false)
    (hconfirm : env.confirmAnswer = false) :
    (run opts env).calls = [EngineCall.psList] ∧
    (run opts env).outcome = Outcome.exitCode 0 ∧
    (run opts env).errors = [] := by
  have hf : ¬ ((if opts.no_internet then 1 else 0) + (if opts.only_claude then 1 else 0) +
      (if opts.only_dev then 1 else 0) > 1) := Nat.not_lt.mpr hflags
  simp [run, hengine, hf, hfind, hstopped, hforce, hconfirm]

/-- Environment: the stopped container is found, the user declines. -/
def declinedEnv : EngineEnv :=
  { sampleEnv with
      findResult := some sampleStopped,
      confirmAnswer := false }

/-- Witness for C2: stopped container, declined prompt. -/
theorem run_stopped_declined_aborts_witness :
    (run sampleOpts declinedEnv).calls = [EngineCall.psList] ∧
    (run sampleOpts declinedEnv).outcome = Outcome.exitCode 0 ∧
    (run sampleOpts declinedEnv).errors = [] :=
  run_stopped_declined_aborts sampleOpts declinedEnv sampleStopped
    (Or.inl rfl) (by decide) rfl (by decide) rfl rfl

/-- **C1**: a running container with the target name is found: no new
container is created and no remove is issued; in detached mode the
identity (name and id) is reported without attaching, otherwise `run`
attaches interactively; a recorded mounted path that is nonempty and
differs from the requested folder surfaces a warning while the attach
still proceeds. -/
theorem run_attaches_to_running (opts : RunOpts) (env : EngineEnv) (c : Container)
    (hengine : opts.engine = toL "podman" ∨ opts.engine = toL "docker")
    (hflags : (if opts.no_internet then 1 else 0) + (if opts.only_claude then 1 else 0) +
      (if opts.only_dev then 1 else 0) ≤ 1)
    (hfind : env.findResult = some c)
    (hup : isActiveStatus c.status = true) :
    (∀ n, EngineCall.remove n ∉ (run opts env).calls) ∧
    (∀ i, EngineCall.pull i ∉ (run opts env).calls) ∧
    (∀ b, EngineCall.createRun b ∉ (run opts env).calls) ∧
    (run opts env).outcome = Outcome.normal ∧
    (opts.detach = true →
      (run opts env).calls = [EngineCall.psList] ∧
      Note.alreadyRunning (effectiveName opts) c.id ∈ (run opts env).notes) ∧
    (opts.detach = false →
      (run opts env).calls = [EngineCall.psList, EngineCall.attach (effectiveName opts)]) ∧
    (c.mounted_path ≠ [] → c.mounted_path ≠ opts.folder →
      Warning.mountMismatch c.mounted_path opts.folder ∈ (run opts env).warnings) := by
  have hf : ¬ ((if opts.no_internet then 1 else 0) + (if opts.only_claude then 1 else 0) +
      (if opts.only_dev then 1 else 0) > 1) := Nat.not_lt.mpr hflags
  cases hd : opts.detach <;>
    simp [run, hengine, hf, hfind, hup, hd] <;>
    intro h1 h2 <;>
    simp [h1, h2]

/-- Witness for C1: running container on the same folder, interactive. -/
theorem run_attaches_to_running_witness :
    (∀ n, EngineCall.remove n ∉
      (run sampleOpts { sampleEnv with findResult := some sampleRunning }).calls) ∧
    (∀ i, EngineCall.pull i ∉
      (run sampleOpts { sampleEnv with findResult := some sampleRunning }).calls) ∧
    (∀ b, EngineCall.createRun b ∉
      (run sampleOpts { sampleEnv with findResult := some sampleRunning }).calls) ∧
    (run sampleOpts { sampleEnv with findResult := some sampleRunning }).outcome =
      Outcome.normal ∧
    (sampleOpts.detach = true →
      (run sampleOpts { sampleEnv with findResult := some sampleRunning }).calls =
        [EngineCall.psList] ∧
      Note.alreadyRunning (effectiveName sampleOpts) sampleRunning.id ∈
        (run sampleOpts { sampleEnv with findResult := some sampleRunning }).notes) ∧
    (sampleOpts.detach = false →
      (run sampleOpts { sampleEnv with findResult := some sampleRunning }).calls =
        [EngineCall.psList, EngineCall.attach (effectiveName sampleOpts)]) ∧
    (sampleRunning.mounted_path ≠ [] → sampleRunning.mounted_path ≠ sampleOpts.folder →
      Warning.mountMismatch sampleRunning.mounted_path sampleOpts.folder ∈
        (run sampleOpts { sampleEnv with findResult := some sampleRunning }).warnings) :=
  run_attaches_to_running sampleOpts { sampleEnv with findResult := some sampleRunning }
    sampleRunning (Or.inl rfl) (by decide) rfl (by decide)

/-- **C10**: in the running-container path, the mount-mismatch warning is
emitted only for a nonempty recorded `mounted_path`; a container whose
label was absent or unparseable (empty `mounted_path`) is attached without
any warning even when the requested folder differs. -/
theorem run_no_mismatch_warning_when_unlabeled (opts : RunOpts) (env : EngineEnv)
    (c : Container)
    (hengine : opts.engine = toL "podman" ∨ opts.engine = toL "docker")
    (hflags : (if opts.no_internet then 1 else 0) + (if opts.only_claude then 1 else 0) +
      (if opts.only_dev then 1 else 0) ≤ 1)
    (hfind : env.findResult = some c)
    (hup : isActiveStatus c.status = true)
    (hempty : c.mounted_path = []) :
    (∀ m r, Warning.mountMismatch m r ∉ (run opts env).warnings) ∧
    (opts.detach = false →
      EngineCall.attach (effectiveName opts) ∈ (run opts env).calls) := by
  have hf : ¬ ((if opts.no_internet then 1 else 0) + (if opts.only_claude then 1 else 0) +
      (if opts.only_dev then 1 else 0) > 1) := Nat.not_lt.mpr hflags
  cases hd : opts.detach <;>
    cases hp : opts.expose_ports <;>
    simp [run, hengine, hf, hfind, hup, hd, hp, hempty]

/-- A running container whose mounted-path label was absent. -/
def unlabeledRunning : Container :=
  { sampleRunning with
      mounted_path := [] }

/-- Witness for C10: unlabeled running container, different folder. -/
theorem run_no_mismatch_warning_when_unlabeled_witness :
    (∀ m r, Warning.mountMismatch m r ∉
      (run sampleOpts { sampleEnv with findResult := some unlabeledRunning }).warnings) ∧
    (sampleOpts.detach = false →
      EngineCall.attach (effectiveName sampleOpts) ∈
        (run sampleOpts { sampleEnv with findResult := some unlabeledRunning }).calls) :=
  run_no_mismatch_warning_when_unlabeled sampleOpts
    { sampleEnv with findResult := some unlabeledRunning } unlabeledRunning
    (Or.inl rfl) (by decide) rfl (by decide) rfl

/-- The `run` invocation gets past the existing-container handling and
reaches the creation step: nothing was found, or a stopped container was
found, removal was authorized (force, or a confirmed prompt) and the
remove subprocess succeeded. -/
def reachesCreate (opts : RunOpts) (env : EngineEnv) : Prop :=
  env.findResult = none ∨
  ∃ c, env.findResult = some c ∧ isActiveStatus c.status = false ∧
    (opts.force = true ∨ env.confirmAnswer = true) ∧ env.removeReturncode = 0

/-- **C3**: during `run`, a non-zero remove or pull is fatal before any
new container is created.  A failed remove of the stopped container exits
with code 1, surfaces its stderr, and never reaches pull or create; in
detached mode the pull precedes the `podman run`, a failed pull exits
with code 1 surfacing the pull stderr and the run command is never
executed, and only a successful pull is followed by the create call. -/
theorem run_remove_pull_failures_fatal (opts : RunOpts) (env : EngineEnv) (c : Container)
    (hengine : opts.engine = toL "podman" ∨ opts.engine = toL "docker")
    (hflags : (if opts.no_internet then 1 else 0) + (if opts.only_claude then 1 else 0) +
      (if opts.only_dev then 1 else 0) ≤ 1) :
    (env.findResult = some c → isActiveStatus c.status = false →
      (opts.force = true ∨ env.confirmAnswer = true) → env.removeReturncode ≠ 0 →
        (run opts env).outcome = Outcome.exitCode 1 ∧
        (run opts env).calls = [EngineCall.psList, EngineCall.remove (effectiveName opts)] ∧
        ErrMsg.removeFailed env.removeStderr ∈ (run opts env).errors) ∧
    (opts.detach = true → reachesCreate opts env → env.pullReturncode ≠ 0 →
        (run opts env).outcome = Outcome.exitCode 1 ∧
        EngineCall.pull opts.image ∈ (run opts env).calls ∧
        (∀ b, EngineCall.createRun b ∉ (run opts env).calls) ∧
        ErrMsg.engineError env.pullStderr ∈ (run opts env).errors) ∧
    (opts.detach = true → reachesCreate opts env → env.pullReturncode = 0 →
        ∃ pre, (run opts env).calls =
          pre ++ [EngineCall.pull opts.image, EngineCall.createRun true]) := by
  have hf : ¬ ((if opts.no_internet then 1 else 0) + (if opts.only_claude then 1 else 0) +
      (if opts.only_dev then 1 else 0) > 1) := Nat.not_lt.mpr hflags
  refine ⟨fun hfind hstopped hgo hrc => ?_, fun hd hreach hpull => ?_, fun hd hreach hpull => ?_⟩
  · rcases hgo with hgo | hgo
    · simp [run, hengine, hf, hfind, hstopped, hgo, hrc]
    · cases hforce : opts.force <;>
        simp [run, hengine, hf, hfind, hstopped, hforce, hgo, hrc]
  · rcases hreach with hfind | ⟨c2, hfind, hstopped, hgo, hrm⟩
    · simp [run, hengine, hf, hfind, createPhase, hd, hpull]
    · rcases hgo with hgo | hgo
      · simp [run, hengine, hf, hfind, hstopped, hgo, hrm, createPhase, hd, hpull]
      · cases hforce : opts.force <;>
          simp [run, hengine, hf, hfind, hstopped, hforce, hgo, hrm, createPhase, hd, hpull]
  · rcases hreach with hfind | ⟨c2, hfind, hstopped, hgo, hrm⟩
    · cases hrun : env.runReturncode with
      | zero => exact ⟨[EngineCall.psList],
          by simp [run, hengine, hf, hfind, createPhase, hd, hpull, hrun]⟩
      | succ m => exact ⟨[EngineCall.psList],
          by simp [run, hengine, hf, hfind, createPhase, hd, hpull, hrun]⟩
    · have hpre : (run opts env).calls =
          [EngineCall.psList, EngineCall.remove (effectiveName opts)] ++
          [EngineCall.pull opts.image, EngineCall.createRun true] := by
        rcases hgo with hgo | hgo
        · cases hrun : env.runReturncode <;>
            simp [run, hengine, hf, hfind, hstopped, hgo, hrm, createPhase, hd, hpull, hrun]
        · cases hforce : opts.force <;> cases hrun : env.runReturncode <;>
            simp [run, hengine, hf, hfind, hstopped, hforce, hgo, hrm, createPhase, hd,
              hpull, hrun]
      exact ⟨[EngineCall.psList, EngineCall.remove (effectiveName opts)], hpre⟩

/-- Options for a detached run. -/
def detachOpts : RunOpts :=
  { sampleOpts with
      detach := true }

/-- Environment: nothing found, the image pull fails. -/
def pullFailEnv : EngineEnv :=
  { sampleEnv with
      pullReturncode := 1,
      pullStderr := toL "pull failed" }

/-- Environment: stopped container found, confirmation given, remove fails. -/
def removeFailEnv : EngineEnv :=
  { sampleEnv with
      findResult := some sampleStopped,
      removeReturncode := 1,
      removeStderr := toL "rm failed" }

/-- Witness for C3: failed remove aborts; failed pull in detached mode
aborts before the run command. -/
theorem run_remove_pull_failures_fatal_witness :
    ((run sampleOpts removeFailEnv).outcome = Outcome.exitCode 1 ∧
      (run sampleOpts removeFailEnv).calls =
        [EngineCall.psList, EngineCall.remove (effectiveName sampleOpts)] ∧
      ErrMsg.removeFailed removeFailEnv.removeStderr ∈
        (run sampleOpts removeFailEnv).errors) ∧
    ((run detachOpts pullFailEnv).outcome = Outcome.exitCode 1 ∧
      EngineCall.pull detachOpts.image ∈ (run detachOpts pullFailEnv).calls ∧
      (∀ b, EngineCall.createRun b ∉ (run detachOpts pullFailEnv).calls) ∧
      ErrMsg.engineError pullFailEnv.pullStderr ∈ (run detachOpts pullFailEnv).errors) :=
  ⟨((run_remove_pull_failures_fatal sampleOpts removeFailEnv sampleStopped
      (Or.inl rfl) (by decide)).1 rfl (by decide) (Or.inr rfl) (by decide)),
   ((run_remove_pull_failures_fatal detachOpts pullFailEnv sampleStopped
      (Or.inl rfl) (by decide)).2.1 rfl (Or.inl rfl) (by decide))⟩

/-- `cli.py::stop`: outcome and the surfaced stderr (if any) as a function
of the `podman stop` subprocess result. -/
def stop_cmd (rc : Nat) (stderrText : List Char) : Outcome × Option (List Char) :=
  if rc = 0 then (Outcome.normal, none) else (Outcome.exitCode 1, some stderrText)

/-- `cli.py::rm`: outcome and the surfaced stderr (if any) as a function of
the `podman rm` subprocess result. -/
def rm_cmd (rc : Nat) (stderrText : List Char) : Outcome × Option (List Char) :=
  if rc = 0 then (Outcome.normal, none) else (Outcome.exitCode 1, some stderrText)

/-- **C9 counterexample**: the claim says a non-zero `ps` exit underneath
`list_containers` is surfaced at the operation boundary.  In the code
(`container.py` lines 247-248) it is not: at this concrete input the `ps`
subprocess exits 1 while its stdout even holds a well-formed container
line, yet `list_containers` returns the ordinary empty list and the `list`
command completes normally, printing the no-containers notice. -/
theorem ps_failure_not_surfaced :
    list_containers 1
      (toL "deadbeefcafe|sandboxer-proj-abcd1234|Up 2 minutes|map[com.sandboxer.managed:true]") =
      [] ∧
    list_cmd 1
      (toL "deadbeefcafe|sandboxer-proj-abcd1234|Up 2 minutes|map[com.sandboxer.managed:true]") =
      (Outcome.normal, true) :=
  ⟨rfl, rfl⟩

/-- `cli.py::turn_off_claude_websearch`: outcome and the surfaced stderr
(if any) as a function of the `podman exec` subprocess result. -/
def turn_off_claude_websearch (rc : Nat) (stderrText : List Char) :
    Outcome × Option (List Char) :=
  if rc = 0 then (Outcome.normal, none) else (Outcome.exitCode 1, some stderrText)

/-- The `run` invocation gets past the existing-container handling and
reaches the creation step (same condition as `reachesCreate`, restated
here so this claim's development stands on its own). -/
def reachesCreateStep (opts : RunOpts) (env : EngineEnv) : Prop :=
  env.findResult = none ∨
  ∃ c, env.findResult = some c ∧ isActiveStatus c.status = false ∧
    (opts.force = true ∨ env.confirmAnswer = true) ∧ env.removeReturncode = 0

/-- **C9 amended**: every engine subprocess failure except the `ps` under
`list_containers` surfaces the captured stderr and is fatal (exit code 1):
the `stop` and `rm` commands, the config-command `exec`, and the remove,
pull, and detached create-run steps of `run`; but a non-zero `ps` exit in
`list_containers` is absorbed — the function returns an empty list and the
`list` operation completes normally. -/
theorem engine_failures_surfaced_except_ps (rc : Nat) (out stderrText : List Char)
    (opts : RunOpts) (env : EngineEnv) (c : Container)
    (hrc : rc ≠ 0)
    (hengine : opts.engine = toL "podman" ∨ opts.engine = toL "docker")
    (hflags : (if opts.no_internet then 1 else 0) + (if opts.only_claude then 1 else 0) +
      (if opts.only_dev then 1 else 0) ≤ 1) :
    (list_containers rc out = [] ∧ list_cmd rc out = (Outcome.normal, true)) ∧
    stop_cmd rc stderrText = (Outcome.exitCode 1, some stderrText) ∧
    rm_cmd rc stderrText = (Outcome.exitCode 1, some stderrText) ∧
    turn_off_claude_websearch rc stderrText = (Outcome.exitCode 1, some stderrText) ∧
    (env.findResult = some c → isActiveStatus c.status = false →
      (opts.force = true ∨ env.confirmAnswer = true) → env.removeReturncode ≠ 0 →
        (run opts env).outcome = Outcome.exitCode 1 ∧
        ErrMsg.removeFailed env.removeStderr ∈ (run opts env).errors) ∧
    (opts.detach = true → reachesCreateStep opts env → env.pullReturncode ≠ 0 →
        (run opts env).outcome = Outcome.exitCode 1 ∧
        ErrMsg.engineError env.pullStderr ∈ (run opts env).errors) ∧
    (opts.detach = true → reachesCreateStep opts env → env.pullReturncode = 0 →
      env.runReturncode ≠ 0 →
        (run opts env).outcome = Outcome.exitCode 1 ∧
        ErrMsg.engineError env.runStderr ∈ (run opts env).errors) := by
  have hf : ¬ ((if opts.no_internet then 1 else 0) + (if opts.only_claude then 1 else 0) +
      (if opts.only_dev then 1 else 0) > 1) := Nat.not_lt.mpr hflags
  refine ⟨⟨?_, ?_⟩, ?_, ?_, ?_, fun hfind hstopped hgo hrm => ?_,
    fun hd hreach hpull => ?_, fun hd hreach hpull hrun => ?_⟩
  · simp [list_containers, hrc]
  · simp [list_cmd, list_containers, hrc]
  · simp [stop_cmd, hrc]
  · simp [rm_cmd, hrc]
  · simp [turn_off_claude_websearch, hrc]
  · rcases hgo with hgo | hgo
    · simp [run, hengine, hf, hfind, hstopped, hgo, hrm]
    · cases hforce : opts.force <;>
        simp [run, hengine, hf, hfind, hstopped, hforce, hgo, hrm]
  · rcases hreach with hfind | ⟨c2, hfind, hstopped, hgo, hrm⟩
    · simp [run, hengine, hf, hfind, createPhase, hd, hpull]
    · rcases hgo with hgo | hgo
      · simp [run, hengine, hf, hfind, hstopped, hgo, hrm, createPhase, hd, hpull]
      · cases hforce : opts.force <;>
          simp [run, hengine, hf, hfind, hstopped, hforce, hgo, hrm, createPhase, hd, hpull]
  · rcases hreach with hfind | ⟨c2, hfind, hstopped, hgo, hrm⟩
    · simp [run, hengine, hf, hfind, createPhase, hd, hpull, hrun]
    · rcases hgo with hgo | hgo
      · simp [run, hengine, hf, hfind, hstopped, hgo, hrm, createPhase, hd, hpull, hrun]
      · cases hforce : opts.force <;>
          simp [run, hengine, hf, hfind, hstopped, hforce, hgo, hrm, createPhase, hd,
            hpull, hrun]

/-- Environment: nothing found, pull succeeds, the detached create run
fails. -/
def runFailEnv : EngineEnv :=
  { sampleEnv with
      runReturncode := 1,
      runStderr := toL "run failed" }

/-- Witness for the amended C9 at `rc = 1`, with a failing detached create
run. -/
theorem engine_failures_surfaced_except_ps_witness :
    (list_containers 1 (toL "x|y") = [] ∧
      list_cmd 1 (toL "x|y") = (Outcome.normal, true)) ∧
    stop_cmd 1 (toL "boom") = (Outcome.exitCode 1, some (toL "boom")) ∧
    rm_cmd 1 (toL "boom") = (Outcome.exitCode 1, some (toL "boom")) ∧
    turn_off_claude_websearch 1 (toL "boom") = (Outcome.exitCode 1, some (toL "boom")) ∧
    (runFailEnv.findResult = some sampleStopped →
      isActiveStatus sampleStopped.status = false →
      (detachOpts.force = true ∨ runFailEnv.confirmAnswer = true) →
      runFailEnv.removeReturncode ≠ 0 →
        (run detachOpts runFailEnv).outcome = Outcome.exitCode 1 ∧
        ErrMsg.removeFailed runFailEnv.removeStderr ∈
          (run detachOpts runFailEnv).errors) ∧
    (detachOpts.detach = true → reachesCreateStep detachOpts runFailEnv →
      runFailEnv.pullReturncode ≠ 0 →
        (run detachOpts runFailEnv).outcome = Outcome.exitCode 1 ∧
        ErrMsg.engineError runFailEnv.pullStderr ∈
          (run detachOpts runFailEnv).errors) ∧
    (detachOpts.detach = true → reachesCreateStep detachOpts runFailEnv →
      runFailEnv.pullReturncode = 0 → runFailEnv.runReturncode ≠ 0 →
        (run detachOpts runFailEnv).outcome = Outcome.exitCode 1 ∧
        ErrMsg.engineError runFailEnv.runStderr ∈
          (run detachOpts runFailEnv).errors) :=
  engine_failures_surfaced_except_ps 1 (toL "x|y") (toL "boom")
    detachOpts runFailEnv sampleStopped (by decide) (Or.inl rfl) (by decide)

/-- **C7**: the only-claude firewall script resolves exactly one domain —
there is a single `getent` resolution, and it is for `api.anthropic.com` —
and its default-deny rule `sudo iptables -A OUTPUT -j DROP` occurs in the
script text strictly after every `-j ACCEPT` rule (of which there are
some). -/
theorem claude_firewall_one_domain_deny_last :
    countOccur (toL "getent") (toL _generate_claude_only_firewall_script) = 1 ∧
    isSubstr (toL "getent ahostsv4 api.anthropic.com")
      (toL _generate_claude_only_firewall_script) = true ∧
    occurIndices (toL "sudo iptables -A OUTPUT -j DROP")
      (toL _generate_claude_only_firewall_script) ≠ [] ∧
    occurIndices (toL "-j ACCEPT") (toL _generate_claude_only_firewall_script) ≠ [] ∧
    ((occurIndices (toL "-j ACCEPT") (toL _generate_claude_only_firewall_script)).all
      fun i => (occurIndices (toL "sudo iptables -A OUTPUT -j DROP")
        (toL _generate_claude_only_firewall_script)).all fun j => i < j) = true := by
  decide

/-- **C8**: the dev-only script's allow-list is exactly the enumerated
fourteen domains, so it is a superset of the only-claude allow-list (the
single resolved domain `api.anthropic.com`, which is what the claude-only
script resolves) and contains the two package-index hosts, the JS registry
and its web host, the two Go-module hosts, the cloud storage host, the
source-hosting host with three related subdomains, and the two
install-script hosts. -/
theorem dev_firewall_allowlist_superset :
    isSubstr (toL "getent ahostsv4 api.anthropic.com")
      (toL _generate_claude_only_firewall_script) = true ∧
    toL "api.anthropic.com" ∈ devAllowedDomains ∧
    devAllowedDomains =
      [toL "api.anthropic.com", toL "pypi.org", toL "files.pythonhosted.org",
       toL "registry.npmjs.org", toL "npmjs.com", toL "proxy.golang.org",
       toL "sum.golang.org", toL "storage.googleapis.com", toL "github.com",
       toL "api.github.com", toL "objects.githubusercontent.com",
       toL "raw.githubusercontent.com", toL "astral.sh", toL "bun.sh"] := by
  decide

/-- `hexDigitChars.getD` always lands in `hexDigitChars`. -/
theorem getD_hexDigitChars_mem (n : Nat) : hexDigitChars.getD n '0' ∈ hexDigitChars := by
  by_cases hn : n < hexDigitChars.length
  · rw [List.getD_eq_getElem _ _ hn]
    exact List.getElem_mem hn
  · rw [List.getD_eq_default _ _ (Nat.le_of_not_lt hn)]
    decide

/-- Every character `byteToHex` emits is a hex digit. -/
theorem byteToHex_mem_hex (b : Nat) (c : Char) (hc : c ∈ byteToHex b) :
    c ∈ hexDigitChars := by
  simp only [byteToHex, List.mem_cons, List.not_mem_nil, or_false] at hc
  rcases hc with rfl | rfl
  · exact getD_hexDigitChars_mem _
  · exact getD_hexDigitChars_mem _

/-- Every character of a hex digest is a hex digit. -/
theorem hexdigest_mem_hex (bs : List Nat) (c : Char) (hc : c ∈ hexdigest bs) :
    c ∈ hexDigitChars := by
  simp only [hexdigest, List.mem_flatMap] at hc
  obtain ⟨b, _, hcb⟩ := hc
  exact byteToHex_mem_hex b c hcb

/-- A hex digest has two characters per byte. -/
theorem hexdigest_length (bs : List Nat) : (hexdigest bs).length = 2 * bs.length := by
  induction bs with
  | nil => rfl
  | cons b rest ih =>
    simp only [hexdigest, List.flatMap_cons, List.length_append] at ih ⊢
    simp only [byteToHex, List.length_cons, List.length_nil, List.length, ih]
    omega

/-- The digest of the final registers is 32 bytes long. -/
theorem hashBytes_length (h : Hash8) : (hashBytes h).length = 32 := by
  simp [hashBytes, wordBytes]

/-- SHA-256 always produces 32 bytes. -/
theorem sha256_length (msg : List Nat) : (sha256 msg).length = 32 :=
  hashBytes_length _

/-- **C5**: `generate_container_name` is a pure, deterministic function of
the folder path, equal to `"sandboxer-" + basename + "-" + ` the first 8
hex digits of the SHA-256 of the path string; every result starts with
`"sandboxer-"` and ends, after a `-` separator, with exactly 8 hexadecimal
characters. -/
theorem generate_container_name_spec (folder_path : List Char) :
    generate_container_name folder_path =
      toL "sandboxer-" ++ pathBasename folder_path ++ toL "-" ++
        (hexdigest (sha256 (utf8Encode folder_path))).take 8 ∧
    (∀ q, folder_path = q →
      generate_container_name folder_path = generate_container_name q) ∧
    (toL "sandboxer-").isPrefixOf (generate_container_name folder_path) = true ∧
    ∃ stem tail, generate_container_name folder_path = stem ++ '-' :: tail ∧
      tail.length = 8 ∧ ∀ c ∈ tail, c ∈ hexDigitChars := by
  refine ⟨rfl, fun q hq => by rw [hq], ?_, ?_⟩
  · rw [List.isPrefixOf_iff_prefix]
    exact List.prefix_append _ _
  · refine ⟨toL "sandboxer-" ++ pathBasename folder_path,
      (hexdigest (sha256 (utf8Encode folder_path))).take 8, ?_, ?_, ?_⟩
    · simp only [generate_container_name, List.append_assoc]
      rfl
    · rw [List.length_take, hexdigest_length, sha256_length]
      decide
    · intro c hc
      exact hexdigest_mem_hex _ c (List.mem_of_mem_take hc)

/-- FIPS 180-4 test vector: the embedding really is SHA-256. -/
theorem sha256_test_vector :
    hexdigest (sha256 (utf8Encode (toL "abc"))) =
      toL "ba7816bf8f01cfea414140de5dae2223b00361a396177a9cb410ff61f20015ad" := by
  decide

/-- Concrete evaluation of the generated name for `/tmp/proj` (the hash
matches `hashlib.sha256(b"/tmp/proj").hexdigest()[:8]`). -/
theorem generate_container_name_tmp_proj :
    generate_container_name (toL "/tmp/proj") = toL "sandboxer-proj-29ccbcbc" := by
  decide

/-! ### Support for the parsing claim: joining and splitting -/

/-- Join pieces with a separator character (inverse of `splitChar` on
separator-free pieces). -/
def joinSep (sep : Char) : List (List Char) → List Char
  | [] => []
  | [x] => x
  | x :: y :: rest => x ++ sep :: joinSep sep (y :: rest)

/-- The value of the first `LABEL_MOUNTED_PATH` entry of an association
list of labels; empty when absent.  This is the specification-side
description of what the label scan extracts. -/
def lookupMounted : List (List Char × List Char) → List Char
  | [] => []
  | kv :: rest => if kv.1 = LABEL_MOUNTED_PATH then kv.2 else lookupMounted rest

/-- A labels blob `map[k:v k2:v2 ...]` built from an association list. -/
def mkLabels (kvs : List (List Char × List Char)) : List Char :=
  toL "map[" ++ joinSep ' ' (kvs.map fun kv => kv.1 ++ ':' :: kv.2) ++ [']']

/-- A well-formed `ps` output line `id|name|status|labels`. -/
def mkLine (idf nm st labels : List Char) : List Char :=
  idf ++ ('|' :: (nm ++ ('|' :: (st ++ ('|' :: labels)))))

/-- Splitting a separator-free list yields one piece. -/
theorem splitChar_no_sep (sep : Char) (a : List Char) (ha : sep ∉ a) :
    splitChar sep a = [a] := by
  induction a with
  | nil => rfl
  | cons c cs ih =>
    have hc : ¬ c = sep := by rintro rfl; exact ha (List.mem_cons_self _ _)
    have hcs : sep ∉ cs := fun h => ha (List.mem_cons_of_mem _ h)
    simp [splitChar, hc, ih hcs]

/-- Splitting peels off a separator-free head piece. -/
theorem splitChar_append (sep : Char) (a rest : List Char) (ha : sep ∉ a) :
    splitChar sep (a ++ sep :: rest) = a :: splitChar sep rest := by
  induction a with
  | nil => simp [splitChar]
  | cons c cs ih =>
    have hc : ¬ c = sep := by rintro rfl; exact ha (List.mem_cons_self _ _)
    have hcs : sep ∉ cs := fun h => ha (List.mem_cons_of_mem _ h)
    simp [splitChar, hc, ih hcs]

/-- `splitChar` round-trips `joinSep` on nonempty separator-free pieces. -/
theorem splitChar_joinSep (sep : Char) (pieces : List (List Char))
    (hne : pieces ≠ []) (hp : ∀ p ∈ pieces, sep ∉ p) :
    splitChar sep (joinSep sep pieces) = pieces := by
  induction pieces with
  | nil => exact absurd rfl hne
  | cons x rest ih =>
    cases rest with
    | nil => exact splitChar_no_sep sep x (hp x (List.mem_cons_self _ _))
    | cons y rest2 =>
      show splitChar sep (x ++ sep :: joinSep sep (y :: rest2)) = _
      rw [splitChar_append sep x _ (hp x (List.mem_cons_self _ _)),
        ih (by simp) fun p hp2 => hp p (List.mem_cons_of_mem _ hp2)]

/-- Characters of a join are the separator or characters of the pieces. -/
theorem mem_joinSep (sep c : Char) (pieces : List (List Char))
    (hc : c ∈ joinSep sep pieces) : c = sep ∨ ∃ p ∈ pieces, c ∈ p := by
  induction pieces with
  | nil => cases hc
  | cons x rest ih =>
    cases rest with
    | nil => exact Or.inr ⟨x, List.mem_cons_self _ _, hc⟩
    | cons y rest2 =>
      have hc2 : c ∈ x ++ sep :: joinSep sep (y :: rest2) := hc
      rcases List.mem_append.mp hc2 with h | h
      · exact Or.inr ⟨x, List.mem_cons_self _ _, h⟩
      · rcases List.mem_cons.mp h with rfl | h
        · exact Or.inl rfl
        · rcases ih h with h2 | ⟨p, hp, hcp⟩
          · exact Or.inl h2
          · exact Or.inr ⟨p, List.mem_cons_of_mem _ hp, hcp⟩

/-- For `c`-free `a` and `b`, `a ++ [c]` is a prefix of `b ++ c :: w`
exactly when `a = b`. -/
theorem append_mark_prefix_iff (c : Char) (a b w : List Char)
    (hca : c ∉ a) (hcb : c ∉ b) : (a ++ [c] <+: b ++ c :: w) ↔ a = b := by
  induction a generalizing b with
  | nil =>
    cases b with
    | nil => simp only [List.nil_append, eq_self_iff_true, iff_true]; exact ⟨w, rfl⟩
    | cons y bs =>
      simp only [List.nil_append, List.cons_append, List.cons_prefix_cons]
      constructor
      · rintro ⟨rfl, -⟩
        exact absurd (List.mem_cons_self _ _) hcb
      · rintro h
        cases h
  | cons x as ih =>
    cases b with
    | nil =>
      simp only [List.cons_append, List.nil_append, List.cons_prefix_cons]
      constructor
      · rintro ⟨rfl, -⟩
        exact absurd (List.mem_cons_self _ _) hca
      · rintro h
        cases h
    | cons y bs =>
      have hca2 : c ∉ as := fun h => hca (List.mem_cons_of_mem _ h)
      have hcb2 : c ∉ bs := fun h => hcb (List.mem_cons_of_mem _ h)
      simp only [List.cons_append, List.cons_prefix_cons, List.cons_eq_cons]
      exact and_congr_right fun _ => ih bs hca2 hcb2

/-- `afterFirst` recovers the value after a colon-free key. -/
theorem afterFirst_key (c : Char) (k v : List Char) (hk : c ∉ k) :
    afterFirst c (k ++ c :: v) = v := by
  induction k with
  | nil => simp [afterFirst]
  | cons x xs ih =>
    have hx : ¬ x = c := by rintro rfl; exact hk (List.mem_cons_self _ _)
    have hxs : c ∉ xs := fun h => hk (List.mem_cons_of_mem _ h)
    simp [afterFirst, hx, ih hxs]

/-- The label scan over an association-list blob is exactly the first
`LABEL_MOUNTED_PATH` lookup. -/
theorem findMountedPath_pairs (kvs : List (List Char × List Char))
    (hkv : ∀ kv ∈ kvs, ':' ∉ kv.1) :
    findMountedPath (kvs.map fun kv => kv.1 ++ ':' :: kv.2) = lookupMounted kvs := by
  have hlbl : ':' ∉ LABEL_MOUNTED_PATH := by decide
  induction kvs with
  | nil => rfl
  | cons kv rest ih =>
    have hk : ':' ∉ kv.1 := (hkv kv (List.mem_cons_self _ _))
    have hrest : ∀ p ∈ rest, ':' ∉ p.1 := fun p hp => hkv p (List.mem_cons_of_mem _ hp)
    simp only [List.map_cons, findMountedPath, lookupMounted]
    by_cases heq : kv.1 = LABEL_MOUNTED_PATH
    · rw [if_pos, if_pos heq, afterFirst_key ':' kv.1 kv.2 hk]
      rw [List.isPrefixOf_iff_prefix]
      exact (append_mark_prefix_iff ':' LABEL_MOUNTED_PATH kv.1 kv.2 hlbl hk).mpr heq.symm
    · rw [if_neg, if_neg heq, ih hrest]
      rw [List.isPrefixOf_iff_prefix]
      exact fun h =>
        heq ((append_mark_prefix_iff ':' LABEL_MOUNTED_PATH kv.1 kv.2 hlbl hk).mp h).symm

/-- Parsing a built labels blob recovers the first mounted-path value. -/
theorem parseLabels_mkLabels (kvs : List (List Char × List Char))
    (hkv : ∀ kv ∈ kvs, ' ' ∉ kv.1 ∧ ' ' ∉ kv.2 ∧ ':' ∉ kv.1) :
    parseLabels (mkLabels kvs) = lookupMounted kvs := by
  have hpre : (toL "map[").isPrefixOf (mkLabels kvs) = true := by
    rw [List.isPrefixOf_iff_prefix, mkLabels, List.append_assoc]
    exact List.prefix_append _ _
  have hsuf : [']'].isSuffixOf (mkLabels kvs) = true := by
    rw [List.isSuffixOf_iff_suffix, mkLabels]
    exact List.suffix_append _ _
  have hdrop : (mkLabels kvs).drop 4 =
      joinSep ' ' (kvs.map fun kv => kv.1 ++ ':' :: kv.2) ++ [']'] := by
    have h4 : (toL "map[").length = 4 := rfl
    rw [mkLabels, List.append_assoc, ← h4, List.drop_left]
  have hcond : ((toL "map[").isPrefixOf (mkLabels kvs) &&
      [']'].isSuffixOf (mkLabels kvs)) = true := by rw [hpre, hsuf]; rfl
  rw [parseLabels, if_pos hcond, hdrop]
  have hdl : (joinSep ' ' (kvs.map fun kv => kv.1 ++ ':' :: kv.2) ++ [']']).dropLast =
      joinSep ' ' (kvs.map fun kv => kv.1 ++ ':' :: kv.2) := by simp
  rw [hdl]
  cases kvs with
  | nil => decide
  | cons kv rest =>
    have hsp : ∀ p ∈ ((kv :: rest).map fun kv => kv.1 ++ ':' :: kv.2), ' ' ∉ p := by
      intro p hp hmem
      obtain ⟨kv2, hkv2, rfl⟩ := List.mem_map.mp hp
      rcases List.mem_append.mp hmem with h | h
      · exact (hkv kv2 hkv2).1 h
      · rcases List.mem_cons.mp h with h | h
        · exact absurd h (by decide)
        · exact (hkv kv2 hkv2).2.1 h
    rw [splitChar_joinSep ' ' _ (by simp) hsp]
    exact findMountedPath_pairs (kv :: rest) fun p hp => (hkv p hp).2.2

/-- **C6**: a well-formed `ps` line `id|name|status|map[k:v ...]` parses to
a `Container` with the id truncated to 12 characters, the name and status
fields exact, and the mounted path equal to the first
`com.sandboxer.mounted-path` label value (empty when absent); a line with
fewer than 4 `|`-fields parses to `none`; and a whole batch parses to
exactly the per-line results, skipping the malformed lines without any
error. -/
theorem list_containers_roundtrip
    (idf nm st badline : List Char) (kvs : List (List Char × List Char))
    (lines : List (List Char))
    (hid : '|' ∉ idf) (hnm : '|' ∉ nm) (hst : '|' ∉ st)
    (hkv : ∀ kv ∈ kvs, ' ' ∉ kv.1 ∧ ' ' ∉ kv.2 ∧ ':' ∉ kv.1 ∧ '|' ∉ kv.1 ∧ '|' ∉ kv.2)
    (hbadline : (splitChar '|' badline).length < 4)
    (hnl : ∀ l ∈ lines, '\n' ∉ l)
    (htrim : trimWs (joinSep '\n' lines) = joinSep '\n' lines) :
    parseLine (mkLine idf nm st (mkLabels kvs)) =
      some { id := idf.take 12, name := nm, status := st,
             mounted_path := lookupMounted kvs } ∧
    parseLine badline = none ∧
    list_containers 0 (joinSep '\n' lines) = lines.filterMap parseLine := by
  have hlab : '|' ∉ mkLabels kvs := by
    intro h
    rcases List.mem_append.mp h with h | h
    · rcases List.mem_append.mp h with h | h
      · exact absurd h (by decide)
      · rcases mem_joinSep ' ' '|' _ h with h | ⟨p, hp, hcp⟩
        · exact absurd h (by decide)
        · obtain ⟨kv, hkvm, rfl⟩ := List.mem_map.mp hp
          rcases List.mem_append.mp hcp with h2 | h2
          · exact (hkv kv hkvm).2.2.2.1 h2
          · rcases List.mem_cons.mp h2 with h2 | h2
            · exact absurd h2 (by decide)
            · exact (hkv kv hkvm).2.2.2.2 h2
    · rcases List.mem_cons.mp h with h | h
      · exact absurd h (by decide)
      · cases h
  have hne : mkLine idf nm st (mkLabels kvs) ≠ [] := by
    rw [mkLine]
    intro h
    rcases List.append_eq_nil.mp h with ⟨-, h2⟩
    cases h2
  have hsplit : splitChar '|' (mkLine idf nm st (mkLabels kvs)) =
      [idf, nm, st, mkLabels kvs] := by
    rw [mkLine, splitChar_append '|' idf _ hid, splitChar_append '|' nm _ hnm,
      splitChar_append '|' st _ hst, splitChar_no_sep '|' _ hlab]
  refine ⟨?_, ?_, ?_⟩
  · rw [parseLine, if_neg hne]
    simp only [hsplit, List.length_cons, List.length_nil]
    rw [if_neg (by omega)]
    simp [List.getD,
      parseLabels_mkLabels kvs fun kv h => ⟨(hkv kv h).1, (hkv kv h).2.1, (hkv kv h).2.2.1⟩]
  · by_cases hb : badline = []
    · rw [parseLine, if_pos hb]
    · rw [parseLine, if_neg hb]
      simp only []
      rw [if_pos hbadline]
  · cases lines with
    | nil => rfl
    | cons x rest =>
      rw [list_containers, if_neg (by simp), htrim,
        splitChar_joinSep '\n' _ (by simp) hnl]

/-- Labels carried by a typical sandboxer container. -/
def sampleKvs : List (List Char × List Char) :=
  [(LABEL_MANAGED, toL "true"), (LABEL_MOUNTED_PATH, toL "/tmp/proj")]

/-- A well-formed `ps` output line for that container. -/
def goodLine : List Char :=
  mkLine (toL "deadbeefcafebabe") (toL "sandboxer-proj-abcd1234")
    (toL "Up 2 minutes") (mkLabels sampleKvs)

/-- Witness for C6 on a concrete two-line batch with one malformed line. -/
theorem list_containers_roundtrip_witness :
    parseLine goodLine =
      some { id := (toL "deadbeefcafebabe").take 12,
             name := toL "sandboxer-proj-abcd1234",
             status := toL "Up 2 minutes",
             mounted_path := lookupMounted sampleKvs } ∧
    parseLine (toL "garbage") = none ∧
    list_containers 0 (joinSep '\n' [goodLine, toL "garbage"]) =
      [goodLine, toL "garbage"].filterMap parseLine :=
  list_containers_roundtrip (toL "deadbeefcafebabe") (toL "sandboxer-proj-abcd1234")
    (toL "Up 2 minutes") (toL "garbage") sampleKvs [goodLine, toL "garbage"]
    (by decide) (by decide) (by decide) (by decide) (by decide) (by decide) (by decide)

end Sandboxer
